import Mathlib

/-!
Shallow embedding of the ShareBite donation/driver-matching subsystem.

Sources embedded (JavaScript, Express + Mongoose):
- services/driverAssignment.js : calculateDistance, calculateFoodQuantity,
  getVehicleCapacityKg, isDriverAvailable, assignDriver (auto-commit path)
- routes/donations.js : reserve, available-drivers (advisory ranking),
  assign-driver (manual commit), status update, delivery-proof
- routes/drivers.js : driver self-service status update
- routes/admin.js : admin user update
- routes/users.js : profile update
- models/Donation.js, models/User.js : record shapes, pre-save updatedAt hook

Numbers are modelled as rationals; times as rationals supplied by the caller
(the code reads `new Date()` / relies on the Mongoose pre-save hook).
The Haversine distance function is trigonometric, so the matching pipelines
are parameterised by a distance function `dist`; no claim here depends on
its numeric values.
-/

namespace ShareBite

/-- Geographic coordinates (`address.coordinates` / `pickupAddress.coordinates`). -/
structure Coordinates where
  lat : ℚ
  lng : ℚ
deriving Repr, DecidableEq

/-- A food item of a donation (`foodItems` entries in models/Donation.js). -/
structure FoodItem where
  name : String
  quantity : ℚ
  unit : String
deriving Repr, DecidableEq

/-- A delivery-proof record (`deliveryProof` in models/Donation.js). -/
structure ProofRec where
  url : String
  uploadedAt : ℚ
deriving Repr, DecidableEq

/-- A donation document (models/Donation.js). References are stored as ids. -/
structure DonationRec where
  id : String
  donor : String
  receiver : Option String
  driver : Option String
  foodItems : List FoodItem
  pickupCoordinates : Option Coordinates
  status : String
  preferredPickupTime : ℚ
  actualPickupTime : Option ℚ
  actualDeliveryTime : Option ℚ
  deliveryProof : Option ProofRec
  notes : Option String
  createdAt : ℚ
  updatedAt : ℚ
deriving Repr, DecidableEq

/-- A user document (models/User.js); drivers are users with `userType = "driver"`. -/
structure UserRec where
  id : String
  name : String
  phone : String
  userType : String
  isActive : Bool
  kycStatus : String
  driverStatus : String
  vehicleCapacity : Option String
  reputationScore : ℚ
  coordinates : Option Coordinates
deriving Repr, DecidableEq

/-- The persistent store: all donation and user documents. -/
structure SysState where
  donations : List DonationRec
  users : List UserRec
deriving Repr, DecidableEq

/-- `Donation.findById` / the store lookup by donation id. -/
def findDonation (st : SysState) (donationId : String) : Option DonationRec :=
  st.donations.find? (fun d => d.id == donationId)

/-- `User.findById` / the store lookup by user id. -/
def findUser (st : SysState) (userId : String) : Option UserRec :=
  st.users.find? (fun u => u.id == userId)

/-- `donation.save()` — writes the document back by id; the Mongoose pre-save
hook sets `updatedAt` to the current time. -/
def saveDonation (st : SysState) (d : DonationRec) (now : ℚ) : SysState :=
  { st with donations :=
      st.donations.map (fun x => if x.id == d.id then { d with updatedAt := now } else x) }

/-- `user.save()` — writes the user document back by id. -/
def saveUser (st : SysState) (u : UserRec) : SysState :=
  { st with users := st.users.map (fun x => if x.id == u.id then u else x) }

/-- `calculateFoodQuantity` (services/driverAssignment.js): kg-equivalent of a
food-item list, accumulated over the list with per-unit factors; the `default`
branch adds the bare quantity. -/
def calculateFoodQuantity (foodItems : List FoodItem) : ℚ :=
  foodItems.foldl (fun totalKg item =>
    match item.unit with
    | "kg" => totalKg + item.quantity
    | "liters" => totalKg + item.quantity * 1
    | "boxes" => totalKg + item.quantity * 5
    | "packets" => totalKg + item.quantity * 0.5
    | "pieces" => totalKg + item.quantity * 0.2
    | _ => totalKg + item.quantity) 0

/-- `getVehicleCapacityKg` (services/driverAssignment.js): vehicle-class map
with fallback 150 for any unknown class. -/
def getVehicleCapacityKg (vehicleCapacity : String) : ℚ :=
  match vehicleCapacity with
  | "small" => 50
  | "medium" => 150
  | "large" => 300
  | _ => 150

/-- Spec-side per-unit factor (§4.2): `{kg:1, liters:1, boxes:5, packets:0.5,
pieces:0.2}`, factor 1 for an unrecognized unit. Used only to compare the
source's `calculateFoodQuantity` against the spec's wording. -/
def unitFactorSpec (unit : String) : ℚ :=
  if unit = "kg" then 1
  else if unit = "liters" then 1
  else if unit = "boxes" then 5
  else if unit = "packets" then 0.5
  else if unit = "pieces" then 0.2
  else 1

/-- Spec-side demand (§4.2): `demandKg(items) = Σ quantity·factor(unit)`. -/
def demandKgSpec (items : List FoodItem) : ℚ :=
  (items.map (fun i => i.quantity * unitFactorSpec i.unit)).sum

/-- Spec-side ranking score (§4.4):
`score = 0.4·distanceKm + 0.3·(100 − reputation) + 0.2·(demandKg / capacityKg)`. -/
def specScore (distanceKm reputation demandKg capacityKg : ℚ) : ℚ :=
  0.4 * distanceKm + 0.3 * (100 - reputation) + 0.2 * (demandKg / capacityKg)

/-- JavaScript `Number.prototype.toFixed(2)` composed with `parseFloat`:
rounding to two decimal places (over the rational model). -/
def round2 (q : ℚ) : ℚ :=
  (round (q * 100) : ℚ) / 100

/-- Count of a driver's donations with status `assigned` or `picked_up`
(the `Donation.countDocuments` query of `isDriverAvailable`). -/
def countActive (donations : List DonationRec) (driverId : String) : Nat :=
  (donations.filter (fun don => don.driver == some driverId &&
    (don.status == "assigned" || don.status == "picked_up"))).length

/-- The same count excluding one donation id (the `_id: { $ne: ... }` clause of
the delivery-completion synchronization block). -/
def countActiveExcluding (donations : List DonationRec) (driverId excludeId : String) : Nat :=
  (donations.filter (fun don => don.driver == some driverId && don.id != excludeId &&
    (don.status == "assigned" || don.status == "picked_up"))).length

/-- `isDriverAvailable` (services/driverAssignment.js): re-fetches the user,
checks role and cached flag, then the live count of active assignments. -/
def isDriverAvailable (st : SysState) (driverId : String) : Bool :=
  match findUser st driverId with
  | none => false
  | some driver =>
    if driver.userType != "driver" then false
    else if driver.driverStatus != "available" then false
    else countActive st.donations driverId == 0

/-- Outcome of PATCH /donations/:id/reserve. -/
inductive ReserveOutcome where
  | notFound
  | notAvailable
  | ok
deriving Repr, DecidableEq

/-- PATCH /donations/:id/reserve (routes/donations.js): sets receiver and
status `reserved` when the donation is `available`. -/
def reserveRoute (st : SysState) (donationId receiverId : String) (now : ℚ) :
    ReserveOutcome × SysState :=
  match findDonation st donationId with
  | none => (.notFound, st)
  | some donation =>
    if donation.status != "available" then (.notAvailable, st)
    else
      (.ok, saveDonation st { donation with receiver := some receiverId, status := "reserved" } now)

/-- Outcome of PATCH /donations/:id/assign-driver. -/
inductive AssignOutcome where
  | notFound
  | notReserved
  | driverNotFound
  | driverUnavailable
  | ok
deriving Repr, DecidableEq

/-- The read-and-check phase of PATCH /donations/:id/assign-driver
(routes/donations.js lines 243-261): fetch the donation, require status
`reserved`, fetch the chosen driver, require role `driver` and cached flag
`available`. On success it returns the two documents as captured in handler
memory. -/
def assignDriverRead (st : SysState) (donationId driverId : String) :
    Except AssignOutcome (DonationRec × UserRec) :=
  match findDonation st donationId with
  | none => .error .notFound
  | some donation =>
    if donation.status != "reserved" then .error .notReserved
    else
      match findUser st driverId with
      | none => .error .driverNotFound
      | some driverUser =>
        if driverUser.userType != "driver" then .error .driverNotFound
        else if driverUser.driverStatus != "available" then .error .driverUnavailable
        else .ok (donation, driverUser)

/-- The write phase of PATCH /donations/:id/assign-driver (lines 263-269):
save the captured donation with driver set and status `assigned`, then save
the captured driver with cached flag `busy`. No precondition is re-checked. -/
def assignDriverWrite (st : SysState) (donation : DonationRec) (driverUser : UserRec)
    (driverId : String) (now : ℚ) : SysState :=
  let st1 := saveDonation st { donation with driver := some driverId, status := "assigned" } now
  saveUser st1 { driverUser with driverStatus := "busy" }

/-- PATCH /donations/:id/assign-driver as one sequential handler run:
the read phase immediately followed by the write phase. -/
def assignDriverRoute (st : SysState) (donationId driverId : String) (now : ℚ) :
    AssignOutcome × SysState :=
  match assignDriverRead st donationId driverId with
  | .error e => (e, st)
  | .ok (donation, driverUser) =>
    (.ok, assignDriverWrite st donation driverUser driverId now)

/-- The delivery-completion synchronization block (routes/donations.js,
duplicated in the status and delivery-proof handlers): fetch the bound driver,
count the driver's other `assigned`/`picked_up` donations, and set the cached
flag back to `available` when that count is zero. -/
def syncDriverAfterDelivery (st : SysState) (don : DonationRec) : SysState :=
  match don.driver with
  | none => st
  | some driverId =>
    match findUser st driverId with
    | none => st
    | some driver =>
      if countActiveExcluding st.donations driverId don.id == 0 then
        saveUser st { driver with driverStatus := "available" }
      else st

/-- Outcome of PATCH /donations/:id/status. -/
inductive UpdateOutcome where
  | notFound
  | forbidden
  | ok
deriving Repr, DecidableEq

/-- The in-memory field writes of the status handler (routes/donations.js
lines 306-313): overwrite the status, then each timestamp that was supplied. -/
def updatedDonation (donation : DonationRec) (status0 : String)
    (actualPickupTime actualDeliveryTime : Option ℚ) : DonationRec :=
  let donation1 := { donation with status := status0 }
  let donation2 := match actualPickupTime with
    | some t => { donation1 with actualPickupTime := some t }
    | none => donation1
  match actualDeliveryTime with
  | some t => { donation2 with actualDeliveryTime := some t }
  | none => donation2

/-- PATCH /donations/:id/status (routes/donations.js lines 286-351): after the
association check (donor, receiver, or bound driver), writes the requested
status and the optional timestamps, saves, and — only when the requested
status is `delivered` and a driver is bound — runs the synchronization
block. -/
def updateStatus (st : SysState) (donationId actorId status0 : String)
    (actualPickupTime actualDeliveryTime : Option ℚ) (now : ℚ) :
    UpdateOutcome × SysState :=
  match findDonation st donationId with
  | none => (.notFound, st)
  | some donation =>
    let canUpdate := donation.donor == actorId ||
      donation.receiver == some actorId ||
      donation.driver == some actorId
    if !canUpdate then (.forbidden, st)
    else
      let donation3 := updatedDonation donation status0 actualPickupTime actualDeliveryTime
      let st1 := saveDonation st donation3 now
      let st2 := if status0 == "delivered" && donation3.driver.isSome then
          syncDriverAfterDelivery st1 donation3
        else st1
      (.ok, st2)

/-- Outcome of PATCH /donations/:id/delivery-proof. -/
inductive ProofOutcome where
  | notFound
  | forbidden
  | notPickedUp
  | ok
deriving Repr, DecidableEq

/-- PATCH /donations/:id/delivery-proof (routes/donations.js lines 354-415):
only the bound driver, only from `picked_up`; stores the proof, sets status
`delivered` and the delivery time, then runs the synchronization block. -/
def deliveryProofRoute (st : SysState) (donationId driverId proofUrl : String) (now : ℚ) :
    ProofOutcome × SysState :=
  match findDonation st donationId with
  | none => (.notFound, st)
  | some donation =>
    if donation.driver != some driverId then (.forbidden, st)
    else if donation.status != "picked_up" then (.notPickedUp, st)
    else
      let donation1 := { donation with
        deliveryProof := some { url := proofUrl, uploadedAt := now },
        status := "delivered",
        actualDeliveryTime := some now }
      let st1 := saveDonation st donation1 now
      (.ok, syncDriverAfterDelivery st1 donation1)

/-- Outcome of PATCH /drivers/:id/status. -/
inductive DriverStatusOutcome where
  | invalidStatus
  | notFound
  | ok
deriving Repr, DecidableEq

/-- PATCH /drivers/:id/status (routes/drivers.js lines 95-123): a driver's
self-service occupancy update; accepts exactly `available` or `busy` and
writes it directly. -/
def driverSelfStatusRoute (st : SysState) (driverId status0 : String) :
    DriverStatusOutcome × SysState :=
  if !(status0 == "available" || status0 == "busy") then (.invalidStatus, st)
  else
    match findUser st driverId with
    | none => (.notFound, st)
    | some driver =>
      if driver.userType != "driver" then (.notFound, st)
      else (.ok, saveUser st { driver with driverStatus := status0 })

/-- Outcome of PATCH /admin/users/:id. -/
inductive AdminOutcome where
  | notFound
  | ok
deriving Repr, DecidableEq

/-- PATCH /admin/users/:id (routes/admin.js lines 58-81): admin update of KYC
status, reputation, active flag, and — for drivers, when the value is
`available` or `busy` — the occupancy flag. -/
def adminUpdateUserRoute (st : SysState) (userId : String)
    (kycStatus0 : Option String) (reputationScore0 : Option ℚ)
    (isActive0 : Option Bool) (driverStatus0 : Option String) :
    AdminOutcome × SysState :=
  match findUser st userId with
  | none => (.notFound, st)
  | some user =>
    let u1 := match kycStatus0 with
      | some k => { user with kycStatus := k }
      | none => user
    let u2 := match reputationScore0 with
      | some r => { u1 with reputationScore := r }
      | none => u1
    let u3 := match isActive0 with
      | some b => { u2 with isActive := b }
      | none => u2
    let u4 := match driverStatus0 with
      | some ds =>
        if u3.userType == "driver" && (ds == "available" || ds == "busy") then
          { u3 with driverStatus := ds }
        else u3
      | none => u3
    (.ok, saveUser st u4)

/-- Outcome of PATCH /users/:id. -/
inductive ProfileOutcome where
  | notFound
  | ok
deriving Repr, DecidableEq

/-- PATCH /users/:id (routes/users.js): profile update of address (merging
coordinates), name, and phone. -/
def profileUpdateRoute (st : SysState) (userId : String)
    (newCoordinates : Option Coordinates) (newName newPhone : Option String) :
    ProfileOutcome × SysState :=
  match findUser st userId with
  | none => (.notFound, st)
  | some user =>
    let u1 := match newCoordinates with
      | some c => { user with coordinates := some c }
      | none => user
    let u2 := match newName with
      | some n => { u1 with name := n }
      | none => u1
    let u3 := match newPhone with
      | some p => { u2 with phone := p }
      | none => u2
    (.ok, saveUser st u3)

/-- POST /donations (routes/donations.js): creates a donation in status
`available` owned by the authenticated donor. -/
def createDonationRoute (st : SysState) (newId donorId : String)
    (foodItems : List FoodItem) (pickupCoordinates : Option Coordinates)
    (preferredPickupTime : ℚ) (notes : Option String) (now : ℚ) : SysState :=
  { st with donations := st.donations ++
      [{ id := newId, donor := donorId, receiver := none, driver := none,
         foodItems := foodItems, pickupCoordinates := pickupCoordinates,
         status := "available", preferredPickupTime := preferredPickupTime,
         actualPickupTime := none, actualDeliveryTime := none,
         deliveryProof := none, notes := notes,
         createdAt := now, updatedAt := now }] }

/-- An entry of the advisory ranked list (the objects pushed onto
`eligibleDrivers` in the available-drivers handler); `distance` and `score`
are stored rounded to two decimals, as in the source. -/
structure RankedDriver where
  id : String
  distance : ℚ
  capacity : ℚ
  vehicleCapacity : String
  reputationScore : ℚ
  score : ℚ
deriving Repr, DecidableEq

/-- An entry of the auto-commit candidate list (the objects pushed onto
`eligibleDrivers` in `assignDriver`); values are kept raw. -/
structure ScoredEntry where
  driver : UserRec
  distance : ℚ
  capacity : ℚ
  capacityUtilization : ℚ
  reputation : ℚ
  score : ℚ
deriving Repr, DecidableEq

/-- The stable sort `eligibleDrivers.sort((a, b) => a.score - b.score)`:
JavaScript `Array.prototype.sort` is stable, which coincides with insertion
sort by non-strict comparison on the key. -/
def stableSortByScore (key : α → ℚ) (l : List α) : List α :=
  l.insertionSort (fun a b => key a ≤ key b)

/-- The filter-and-score loop of the available-drivers handler
(routes/donations.js lines 168-215), in candidate-pool order: live
availability check, capacity check, coordinate truthiness check, then the
score; pushed entries carry two-decimal rounded distance and score. -/
def advisoryEligible (st : SysState) (foodQuantity : ℚ)
    (dist : Coordinates → Coordinates → ℚ) (pickup : Coordinates) :
    List UserRec → List RankedDriver
  | [] => []
  | driver :: rest =>
    let tail := advisoryEligible st foodQuantity dist pickup rest
    if !isDriverAvailable st driver.id then tail
    else
      let vehicleCapacity := getVehicleCapacityKg (driver.vehicleCapacity.getD "medium")
      if vehicleCapacity < foodQuantity then tail
      else
        match driver.coordinates with
        | none => tail
        | some driverCoords =>
          if driverCoords.lat == 0 || driverCoords.lng == 0 then tail
          else
            let distance := dist driverCoords pickup
            let distanceScore := distance * 0.4
            let reputationScore := (100 - driver.reputationScore) * 0.3
            let capacityUtilization := (foodQuantity / vehicleCapacity) * 0.2
            let totalScore := distanceScore + reputationScore + capacityUtilization
            { id := driver.id,
              distance := round2 distance,
              capacity := vehicleCapacity,
              vehicleCapacity := driver.vehicleCapacity.getD "medium",
              reputationScore := driver.reputationScore,
              score := round2 totalScore } :: tail

/-- The MongoDB pool query shared by both matching paths: drivers with cached
flag `available`, active, and with coordinates present. -/
def driverPool (st : SysState) : List UserRec :=
  st.users.filter (fun u => u.userType == "driver" && u.driverStatus == "available" &&
    u.isActive && u.coordinates.isSome)

/-- Outcome of GET /donations/:id/available-drivers. -/
inductive AdvisoryOutcome where
  | notFound
  | missingLocation
  | ok (drivers : List RankedDriver) (foodQuantity : ℚ)
deriving Repr, DecidableEq

/-- GET /donations/:id/available-drivers (routes/donations.js lines 126-236):
the advisory ranking; fails when the donation is absent or has no pickup
coordinates, otherwise filters, scores and sorts ascending by score. -/
def availableDriversRoute (st : SysState) (donationId : String)
    (dist : Coordinates → Coordinates → ℚ) : AdvisoryOutcome :=
  match findDonation st donationId with
  | none => .notFound
  | some donation =>
    match donation.pickupCoordinates with
    | none => .missingLocation
    | some pickup =>
      let foodQuantity := calculateFoodQuantity donation.foodItems
      let allDrivers := driverPool st
      let eligibleDrivers := advisoryEligible st foodQuantity dist pickup allDrivers
      .ok (stableSortByScore (fun e => e.score) eligibleDrivers) (round2 foodQuantity)

/-- The filter-and-score loop of `assignDriver`
(services/driverAssignment.js lines 111-148): live availability check,
capacity check, then the score with the constant `availabilityScore = 0.1`
term added; entries keep the full driver document and raw values. -/
def autoAssignEligible (st : SysState) (foodQuantity : ℚ)
    (dist : Coordinates → Coordinates → ℚ) (pickup : Coordinates) :
    List UserRec → List ScoredEntry
  | [] => []
  | driver :: rest =>
    let tail := autoAssignEligible st foodQuantity dist pickup rest
    if !isDriverAvailable st driver.id then tail
    else
      let vehicleCapacity := getVehicleCapacityKg (driver.vehicleCapacity.getD "medium")
      if vehicleCapacity < foodQuantity then tail
      else
        match driver.coordinates with
        | none => tail
        | some driverCoords =>
          let distance := dist driverCoords pickup
          let distanceScore := distance * 0.4
          let reputationScore := (100 - driver.reputationScore) * 0.3
          let capacityUtilization := (foodQuantity / vehicleCapacity) * 0.2
          let availabilityScore : ℚ := 0.1
          let totalScore := distanceScore + reputationScore + capacityUtilization +
            availabilityScore
          { driver := driver,
            distance := distance,
            capacity := vehicleCapacity,
            capacityUtilization := foodQuantity / vehicleCapacity,
            reputation := driver.reputationScore,
            score := totalScore } :: tail

/-- Outcome of the `assignDriver` service. -/
inductive AutoAssignOutcome where
  | notFound
  | missingLocation
  | noAvailableDrivers
  | noEligibleDrivers
  | assigned (driverId : String)
deriving Repr, DecidableEq

/-- The populated receiver's coordinates (`donation.receiver?.address?.coordinates`
after `.populate('receiver', ...)` in `assignDriver`). -/
def receiverCoordinates (st : SysState) (donation : DonationRec) : Option Coordinates :=
  match donation.receiver with
  | none => none
  | some receiverId =>
    match findUser st receiverId with
    | none => none
    | some receiver => receiver.coordinates

/-- `assignDriver` (services/driverAssignment.js lines 78-199): the automatic
commit path; requires pickup and receiver coordinates, filters and scores the
pool, sorts ascending, and assigns the best-ranked driver by saving the
donation (driver set, status `assigned`) and then the driver (flag `busy`). -/
def autoAssign (st : SysState) (donationId : String)
    (dist : Coordinates → Coordinates → ℚ) (now : ℚ) :
    AutoAssignOutcome × SysState :=
  match findDonation st donationId with
  | none => (.notFound, st)
  | some donation =>
    match donation.pickupCoordinates, receiverCoordinates st donation with
    | none, _ => (.missingLocation, st)
    | some _, none => (.missingLocation, st)
    | some pickup, some _ =>
      let foodQuantity := calculateFoodQuantity donation.foodItems
      let allDrivers := driverPool st
      if allDrivers.isEmpty then (.noAvailableDrivers, st)
      else
        let eligibleDrivers := autoAssignEligible st foodQuantity dist pickup allDrivers
        match stableSortByScore (fun e => e.score) eligibleDrivers with
        | [] => (.noEligibleDrivers, st)
        | best :: _ =>
          let st1 := saveDonation st
            { donation with driver := some best.driver.id, status := "assigned" } now
          let st2 := saveUser st1 { best.driver with driverStatus := "busy" }
          (.assigned best.driver.id, st2)

/-- The state-mutating operations the system exposes, with their inputs
(read-only endpoints omitted; registration/login excluded per spec §1). -/
inductive Op where
  | createDonation (newId donorId : String) (foodItems : List FoodItem)
      (pickupCoordinates : Option Coordinates) (preferredPickupTime : ℚ)
      (notes : Option String)
  | reserve (donationId receiverId : String)
  | assignDriver (donationId driverId : String)
  | updateStatus (donationId actorId status0 : String)
      (actualPickupTime actualDeliveryTime : Option ℚ)
  | deliveryProof (donationId driverId proofUrl : String)
  | driverSelfStatus (driverId status0 : String)
  | adminUpdateUser (userId : String) (kycStatus0 : Option String)
      (reputationScore0 : Option ℚ) (isActive0 : Option Bool)
      (driverStatus0 : Option String)
  | profileUpdate (userId : String) (newCoordinates : Option Coordinates)
      (newName newPhone : Option String)

/-- The state transformer of one sequential run of an exposed operation. -/
def runOp (now : ℚ) : Op → SysState → SysState
  | .createDonation newId donorId foodItems pickupCoordinates preferredPickupTime notes, st =>
    createDonationRoute st newId donorId foodItems pickupCoordinates preferredPickupTime notes now
  | .reserve donationId receiverId, st => (reserveRoute st donationId receiverId now).2
  | .assignDriver donationId driverId, st => (assignDriverRoute st donationId driverId now).2
  | .updateStatus donationId actorId status0 apt adt, st =>
    (updateStatus st donationId actorId status0 apt adt now).2
  | .deliveryProof donationId driverId proofUrl, st =>
    (deliveryProofRoute st donationId driverId proofUrl now).2
  | .driverSelfStatus driverId status0, st => (driverSelfStatusRoute st driverId status0).2
  | .adminUpdateUser userId k r a d, st => (adminUpdateUserRoute st userId k r a d).2
  | .profileUpdate userId c n p, st => (profileUpdateRoute st userId c n p).2

/-- Spec-side (§3): the operations the spec permits to write a driver's
occupancy flag — the commit path of MatchingEngine and the
DriverStatusSynchronizer invocations (delivery completion). -/
def specOccupancyWriters : Op → Bool
  | .assignDriver _ _ => true
  | .updateStatus _ _ status0 _ _ => status0 == "delivered"
  | .deliveryProof _ _ _ => true
  | _ => false

/-- The operations of the source that actually write some driver's occupancy
flag: the spec's writers plus the driver self-service status endpoint and the
admin user-update endpoint (when a driver-status value is supplied). -/
def codeOccupancyWriters : Op → Bool
  | .assignDriver _ _ => true
  | .updateStatus _ _ status0 _ _ => status0 == "delivered"
  | .deliveryProof _ _ _ => true
  | .driverSelfStatus _ _ => true
  | .adminUpdateUser _ _ _ _ driverStatus0 => driverStatus0.isSome
  | _ => false

/-- The frame of a donation record: every stored field other than `status`,
`actualPickupTime`, `actualDeliveryTime`, and `updatedAt`. -/
def sameFrame (a b : DonationRec) : Prop :=
  a.id = b.id ∧ a.donor = b.donor ∧ a.receiver = b.receiver ∧ a.driver = b.driver ∧
  a.foodItems = b.foodItems ∧ a.pickupCoordinates = b.pickupCoordinates ∧
  a.deliveryProof = b.deliveryProof ∧ a.notes = b.notes ∧
  a.createdAt = b.createdAt ∧ a.preferredPickupTime = b.preferredPickupTime

/-! Concrete fixtures for counterexamples and witnesses. -/

/-- Fixture coordinates of driver A. -/
def coordsA : Coordinates := { lat := 1, lng := 1 }

/-- Fixture coordinates of driver B. -/
def coordsB : Coordinates := { lat := 2, lng := 2 }

/-- Fixture coordinates of driver Y. -/
def coordsY : Coordinates := { lat := 3, lng := 3 }

/-- Fixture pickup coordinates. -/
def coordsPickup : Coordinates := { lat := 10, lng := 10 }

/-- Fixture distance function: 5 km from driver A's position, 20 km from
driver B's position, 0.5 km from anywhere else. -/
def distFix (c : Coordinates) (_ : Coordinates) : ℚ :=
  if c.lat == 1 then 5 else if c.lat == 2 then 20 else 0.5

/-- Driver A of the §8 scenario: medium capacity, reputation 90, 5 km out. -/
def drvA : UserRec :=
  { id := "drvA", name := "A", phone := "1", userType := "driver", isActive := true,
    kycStatus := "verified", driverStatus := "available",
    vehicleCapacity := some "medium", reputationScore := 90,
    coordinates := some coordsA }

/-- Driver B of the §8 scenario: large capacity, reputation 100, 20 km out. -/
def drvB : UserRec :=
  { id := "drvB", name := "B", phone := "2", userType := "driver", isActive := true,
    kycStatus := "verified", driverStatus := "available",
    vehicleCapacity := some "large", reputationScore := 100,
    coordinates := some coordsB }

/-- Driver Y: medium capacity, reputation 84, 0.5 km out — its §4.4 score for
a 90 kg demand ties with driver A's. -/
def drvY : UserRec :=
  { id := "drvY", name := "Y", phone := "3", userType := "driver", isActive := true,
    kycStatus := "verified", driverStatus := "available",
    vehicleCapacity := some "medium", reputationScore := 84,
    coordinates := some coordsY }

/-- A driver whose cached flag reads `available` while it is inactive, has no
coordinates, and still has an active assignment. -/
def drvStale : UserRec :=
  { id := "drvC", name := "C", phone := "4", userType := "driver", isActive := false,
    kycStatus := "pending", driverStatus := "available",
    vehicleCapacity := some "small", reputationScore := 10,
    coordinates := none }

/-- Fixture receiver located at the pickup point. -/
def recvUser : UserRec :=
  { id := "rcv1", name := "R", phone := "5", userType := "receiver", isActive := true,
    kycStatus := "verified", driverStatus := "available",
    vehicleCapacity := none, reputationScore := 100,
    coordinates := some coordsPickup }

/-- A reserved donation of 90 kg with pickup coordinates. -/
def donReserved : DonationRec :=
  { id := "d1", donor := "don1", receiver := some "rcv1", driver := none,
    foodItems := [{ name := "rice", quantity := 90, unit := "kg" }],
    pickupCoordinates := some coordsPickup, status := "reserved",
    preferredPickupTime := 0, actualPickupTime := none, actualDeliveryTime := none,
    deliveryProof := none, notes := none, createdAt := 0, updatedAt := 0 }

/-- The same donation still in status `available` with no receiver. -/
def donAvailable : DonationRec :=
  { donReserved with receiver := none, status := "available" }

/-- A second reserved donation. -/
def donReserved2 : DonationRec := { donReserved with id := "d2" }

/-- A donation assigned to driver A. -/
def donAssignedA : DonationRec :=
  { donReserved with driver := some "drvA", status := "assigned" }

/-- A donation assigned to the stale driver. -/
def donAssignedC : DonationRec :=
  { donReserved with id := "d9", driver := some "drvC", status := "assigned" }

/-- State for the C1 counterexample: one donation in `available`. -/
def stC1 : SysState := { donations := [donAvailable], users := [] }

/-- State for the C2 counterexample: two reserved donations, one driver. -/
def stC2 : SysState := { donations := [donReserved, donReserved2], users := [recvUser, drvA] }

/-- State for the C3 failing input: an assigned donation whose driver is
cached `busy` and has no other active donation. -/
def stC3 : SysState :=
  { donations := [donAssignedA], users := [recvUser, { drvA with driverStatus := "busy" }] }

/-- State for the §8 scenario: the reserved 90 kg donation with drivers A and B. -/
def stScenario : SysState := { donations := [donReserved], users := [recvUser, drvA, drvB] }

/-- State for the C5 counterexample: drivers A and Y whose scores tie. -/
def stTie : SysState := { donations := [], users := [drvA, drvY] }

/-- State for the C6 counterexample: a reserved donation and the stale driver
(cached `available`, inactive, no coordinates, one active assignment). -/
def stC6 : SysState := { donations := [donReserved, donAssignedC], users := [drvStale] }

/-- State for the C7 counterexample: a single available driver. -/
def stC7 : SysState := { donations := [], users := [drvA] }

/-! Shared helper lemmas. -/

/-- Saving a user leaves the donation collection unchanged. -/
theorem saveUser_donations (st : SysState) (u : UserRec) :
    (saveUser st u).donations = st.donations := rfl

/-- Saving a donation leaves the user collection unchanged. -/
theorem saveDonation_users (st : SysState) (d : DonationRec) (now : ℚ) :
    (saveDonation st d now).users = st.users := rfl

/-- The synchronization block writes only users, never donations. -/
theorem sync_donations (st : SysState) (don : DonationRec) :
    (syncDriverAfterDelivery st don).donations = st.donations := by
  unfold syncDriverAfterDelivery
  cases don.driver with
  | none => rfl
  | some driverId =>
    cases hf : findUser st driverId with
    | none => simp [hf]
    | some driver =>
      simp only [hf]
      split <;> rfl

/-- Looking a donation up by id after a save: the stored write keeps every
document's id, so the lookup finds the same position, updated. -/
theorem saveDonation_findDonation (st : SysState) (d : DonationRec) (now : ℚ) (i : String) :
    findDonation (saveDonation st d now) i =
      (findDonation st i).map
        (fun x => if x.id == d.id then { d with updatedAt := now } else x) := by
  unfold findDonation saveDonation
  rw [List.find?_map]
  have hp : ((fun x : DonationRec => x.id == i) ∘
      (fun x => if x.id == d.id then { d with updatedAt := now } else x)) =
      (fun x : DonationRec => x.id == i) := by
    funext x
    by_cases h : x.id = d.id
    · simp [Function.comp, h]
    · simp [Function.comp, h]
  rw [hp]

/-- Looking a user up by id after a save. -/
theorem saveUser_findUser (st : SysState) (u : UserRec) (i : String) :
    findUser (saveUser st u) i =
      (findUser st i).map (fun x => if x.id == u.id then u else x) := by
  unfold findUser saveUser
  rw [List.find?_map]
  have hp : ((fun x : UserRec => x.id == i) ∘
      (fun x => if x.id == u.id then u else x)) =
      (fun x : UserRec => x.id == i) := by
    funext x
    by_cases h : x.id = u.id
    · simp [Function.comp, h]
    · simp [Function.comp, h]
  rw [hp]

/-- A successful donation lookup returns a member whose id is the key. -/
theorem findDonation_eq_some {st : SysState} {i : String} {d : DonationRec}
    (h : findDonation st i = some d) : d ∈ st.donations ∧ d.id = i := by
  unfold findDonation at h
  refine ⟨List.mem_of_find?_eq_some h, ?_⟩
  have := List.find?_some h
  simpa using this

/-- A successful user lookup returns a member whose id is the key. -/
theorem findUser_eq_some {st : SysState} {i : String} {u : UserRec}
    (h : findUser st i = some u) : u ∈ st.users ∧ u.id = i := by
  unfold findUser at h
  refine ⟨List.mem_of_find?_eq_some h, ?_⟩
  have := List.find?_some h
  simpa using this

/-- The in-memory status write keeps the frame of the donation. -/
theorem updatedDonation_sameFrame (don : DonationRec) (status0 : String)
    (apt adt : Option ℚ) : sameFrame don (updatedDonation don status0 apt adt) := by
  unfold sameFrame updatedDonation
  cases apt <;> cases adt <;> exact ⟨rfl, rfl, rfl, rfl, rfl, rfl, rfl, rfl, rfl, rfl⟩

/-- The in-memory status write keeps the document id. -/
theorem updatedDonation_id (don : DonationRec) (status0 : String) (apt adt : Option ℚ) :
    (updatedDonation don status0 apt adt).id = don.id := by
  unfold updatedDonation
  cases apt <;> cases adt <;> rfl

/-- The in-memory status write stores exactly the requested status. -/
theorem updatedDonation_status (don : DonationRec) (status0 : String) (apt adt : Option ℚ) :
    (updatedDonation don status0 apt adt).status = status0 := by
  unfold updatedDonation
  cases apt <;> cases adt <;> rfl

/-- Donation lookups depend only on the donation collection. -/
theorem findDonation_congr (s1 s2 : SysState) (i : String)
    (h : s1.donations = s2.donations) : findDonation s1 i = findDonation s2 i := by
  unfold findDonation
  rw [h]

/-- Pointwise relation between a list and its in-place map. -/
theorem forall₂_map_self {α : Type} {r : α → α → Prop} {f : α → α} :
    ∀ {l : List α}, (∀ x ∈ l, r x (f x)) → List.Forall₂ r l (l.map f)
  | [], _ => List.Forall₂.nil
  | x :: xs, h =>
    List.Forall₂.cons (h x (List.mem_cons_self x xs))
      (forall₂_map_self (fun y hy => h y (List.mem_cons_of_mem x hy)))

/-- One accumulation step of `calculateFoodQuantity` adds exactly
`quantity · factor(unit)` in the sense of the spec's factor table. -/
theorem foodQuantity_step (t : ℚ) (item : FoodItem) :
    (match item.unit with
      | "kg" => t + item.quantity
      | "liters" => t + item.quantity * 1
      | "boxes" => t + item.quantity * 5
      | "packets" => t + item.quantity * 0.5
      | "pieces" => t + item.quantity * 0.2
      | _ => t + item.quantity) = t + item.quantity * unitFactorSpec item.unit := by
  unfold unitFactorSpec
  split <;> simp_all

/-- The fold of `calculateFoodQuantity`, started anywhere, adds the spec's
demand sum. -/
theorem calculateFoodQuantity_go (items : List FoodItem) :
    ∀ a : ℚ, items.foldl (fun totalKg item =>
      match item.unit with
      | "kg" => totalKg + item.quantity
      | "liters" => totalKg + item.quantity * 1
      | "boxes" => totalKg + item.quantity * 5
      | "packets" => totalKg + item.quantity * 0.5
      | "pieces" => totalKg + item.quantity * 0.2
      | _ => totalKg + item.quantity) a = a + demandKgSpec items := by
  induction items with
  | nil => intro a; simp [demandKgSpec]
  | cons x xs ih =>
    intro a
    rw [List.foldl_cons, foodQuantity_step a x, ih]
    simp [demandKgSpec]
    ring

/-- The source's kg-equivalent function agrees with the spec's
`Σ quantity·factor(unit)`. -/
theorem calculateFoodQuantity_eq_spec (items : List FoodItem) :
    calculateFoodQuantity items = demandKgSpec items := by
  unfold calculateFoodQuantity
  rw [calculateFoodQuantity_go items 0]
  ring

/-- The stable score sort produces a list sorted by its key, ascending. -/
theorem stableSortByScore_sorted {α : Type} (key : α → ℚ) (l : List α) :
    List.Sorted (fun a b => key a ≤ key b) (stableSortByScore key l) := by
  haveI : IsTotal α (fun a b => key a ≤ key b) := ⟨fun a b => le_total (key a) (key b)⟩
  haveI : IsTrans α (fun a b => key a ≤ key b) := ⟨fun _ _ _ hab hbc => le_trans hab hbc⟩
  exact List.sorted_insertionSort _ l

/-- The stable score sort permutes its input. -/
theorem stableSortByScore_perm {α : Type} (key : α → ℚ) (l : List α) :
    List.Perm (stableSortByScore key l) l :=
  List.perm_insertionSort _ l

/-- Inserting an element into a list keeps, among the elements of any fixed
key value, the insertion-order: the inserted element lands before every
later element of its key class. -/
theorem filter_key_orderedInsert {α : Type} (key : α → ℚ) (s : ℚ) (a : α) (l : List α) :
    (List.orderedInsert (fun x y => key x ≤ key y) a l).filter (fun e => key e == s) =
      if key a = s then a :: l.filter (fun e => key e == s)
      else l.filter (fun e => key e == s) := by
  induction l with
  | nil =>
    by_cases h : key a = s <;> simp [List.orderedInsert, h]
  | cons b t ih =>
    rw [List.orderedInsert]
    by_cases hab : key a ≤ key b
    · rw [if_pos hab]
      by_cases h : key a = s <;> simp [h, List.filter_cons]
    · rw [if_neg hab]
      have hba : key b < key a := not_le.mp hab
      by_cases h : key a = s
      · have hbs : ¬(key b = s) := by
          rw [← h]
          exact ne_of_lt hba
        simp [List.filter_cons, hbs, ih, h]
      · simp [List.filter_cons, ih, h]

/-- Stability of the score sort: the subsequence of entries having any fixed
key value is exactly the corresponding subsequence of the input, in the same
order. -/
theorem stableSortByScore_filter {α : Type} (key : α → ℚ) (l : List α) (s : ℚ) :
    (stableSortByScore key l).filter (fun e => key e == s) =
      l.filter (fun e => key e == s) := by
  unfold stableSortByScore
  induction l with
  | nil => rfl
  | cons b t ih =>
    rw [List.insertionSort, filter_key_orderedInsert key s b]
    by_cases h : key b = s <;> simp [h, List.filter_cons, ih]

/-- Every entry of the advisory filter-and-score loop stems from a pool
driver that passed the capacity check, and its stored score is the §4.4
formula of that driver's data, rounded to two decimals. -/
theorem advisoryEligible_mem (st : SysState) (fq : ℚ)
    (dist : Coordinates → Coordinates → ℚ) (pickup : Coordinates) :
    ∀ (pool : List UserRec) (e : RankedDriver), e ∈ advisoryEligible st fq dist pickup pool →
    ∃ d, d ∈ pool ∧ e.id = d.id ∧
      e.capacity = getVehicleCapacityKg (d.vehicleCapacity.getD "medium") ∧
      fq ≤ e.capacity ∧
      ∃ c, d.coordinates = some c ∧
        e.score = round2 (specScore (dist c pickup) d.reputationScore fq e.capacity) := by
  intro pool
  induction pool with
  | nil =>
    intro e h
    simp [advisoryEligible] at h
  | cons d rest ih =>
    intro e h
    simp only [advisoryEligible] at h
    by_cases h1 : isDriverAvailable st d.id
    case neg =>
      simp only [h1, Bool.not_false, if_true] at h
      obtain ⟨d0, hd0, hrest⟩ := ih e h
      exact ⟨d0, List.mem_cons_of_mem d hd0, hrest⟩
    case pos =>
      simp only [h1, Bool.not_true, Bool.false_eq_true, if_false] at h
      by_cases h2 : getVehicleCapacityKg (d.vehicleCapacity.getD "medium") < fq
      case pos =>
        simp only [h2, if_true] at h
        obtain ⟨d0, hd0, hrest⟩ := ih e h
        exact ⟨d0, List.mem_cons_of_mem d hd0, hrest⟩
      case neg =>
        simp only [h2, if_false] at h
        cases hc : d.coordinates with
        | none =>
          rw [hc] at h
          obtain ⟨d0, hd0, hrest⟩ := ih e h
          exact ⟨d0, List.mem_cons_of_mem d hd0, hrest⟩
        | some c =>
          rw [hc] at h
          by_cases h3 : (c.lat == 0 || c.lng == 0) = true
          case pos =>
            simp only [h3, if_true] at h
            obtain ⟨d0, hd0, hrest⟩ := ih e h
            exact ⟨d0, List.mem_cons_of_mem d hd0, hrest⟩
          case neg =>
            simp only [h3, if_false] at h
            rcases List.mem_cons.mp h with he | he
            · subst he
              refine ⟨d, List.mem_cons_self d rest, rfl, rfl, not_lt.mp h2, c, hc, ?_⟩
              unfold specScore
              ring_nf
            · obtain ⟨d0, hd0, hrest⟩ := ih e he
              exact ⟨d0, List.mem_cons_of_mem d hd0, hrest⟩

/-- Every entry of the auto-commit filter-and-score loop carries a pool
driver that passed the capacity check, and its score is the §4.4 formula of
that driver's data plus the constant `availabilityScore` term 0.1. -/
theorem autoAssignEligible_mem (st : SysState) (fq : ℚ)
    (dist : Coordinates → Coordinates → ℚ) (pickup : Coordinates) :
    ∀ (pool : List UserRec) (e : ScoredEntry), e ∈ autoAssignEligible st fq dist pickup pool →
    e.driver ∈ pool ∧
    e.capacity = getVehicleCapacityKg (e.driver.vehicleCapacity.getD "medium") ∧
    fq ≤ e.capacity ∧
    ∃ c, e.driver.coordinates = some c ∧
      e.score = specScore (dist c pickup) e.driver.reputationScore fq e.capacity + 0.1 := by
  intro pool
  induction pool with
  | nil =>
    intro e h
    simp [autoAssignEligible] at h
  | cons d rest ih =>
    intro e h
    simp only [autoAssignEligible] at h
    by_cases h1 : isDriverAvailable st d.id
    case neg =>
      simp only [h1, Bool.not_false, if_true] at h
      obtain ⟨hd0, hrest⟩ := ih e h
      exact ⟨List.mem_cons_of_mem d hd0, hrest⟩
    case pos =>
      simp only [h1, Bool.not_true, Bool.false_eq_true, if_false] at h
      by_cases h2 : getVehicleCapacityKg (d.vehicleCapacity.getD "medium") < fq
      case pos =>
        simp only [h2, if_true] at h
        obtain ⟨hd0, hrest⟩ := ih e h
        exact ⟨List.mem_cons_of_mem d hd0, hrest⟩
      case neg =>
        simp only [h2, if_false] at h
        cases hc : d.coordinates with
        | none =>
          rw [hc] at h
          obtain ⟨hd0, hrest⟩ := ih e h
          exact ⟨List.mem_cons_of_mem d hd0, hrest⟩
        | some c =>
          rw [hc] at h
          rcases List.mem_cons.mp h with he | he
          · subst he
            refine ⟨List.mem_cons_self d rest, rfl, not_lt.mp h2, c, hc, ?_⟩
            unfold specScore
            ring
          · obtain ⟨hd0, hrest⟩ := ih e he
            exact ⟨List.mem_cons_of_mem d hd0, hrest⟩

/-! Claim theorems. -/

/-- C9: `demandKg(items)` equals the sum over the items of
`quantity·factor(unit)` with factors kg:1, liters:1, boxes:5, packets:0.5,
pieces:0.2 and factor 1 for any unrecognized unit; it is additive over list
concatenation and 0 on the empty list. -/
theorem C9_demandKg :
    (∀ items : List FoodItem, calculateFoodQuantity items = demandKgSpec items) ∧
    (∀ l1 l2 : List FoodItem,
      calculateFoodQuantity (l1 ++ l2) =
        calculateFoodQuantity l1 + calculateFoodQuantity l2) ∧
    calculateFoodQuantity [] = 0 := by
  refine ⟨calculateFoodQuantity_eq_spec, ?_, rfl⟩
  intro l1 l2
  rw [calculateFoodQuantity_eq_spec, calculateFoodQuantity_eq_spec,
    calculateFoodQuantity_eq_spec]
  unfold demandKgSpec
  rw [List.map_append, List.sum_append]

/-- C1 counterexample: a donation in `available` receiving a status update to
`picked_up` from its donor succeeds with HTTP 200 and the stored status
becomes `picked_up` — the handler has no transition-table validation and no
InvalidTransition outcome, contradicting the claim. -/
theorem C1_counterexample :
    (updateStatus stC1 "d1" "don1" "picked_up" none none 5).1 = UpdateOutcome.ok ∧
    (findDonation (updateStatus stC1 "d1" "don1" "picked_up" none none 5).2 "d1").map
      (fun d => d.status) = some "picked_up" := by
  exact ⟨rfl, rfl⟩

/-- C1 amended: the generic status-update operation performs no
transition-table validation: for every requested status whatsoever, if the
donation exists and the actor is its donor, receiver, or bound driver, the
update succeeds and the stored status becomes the requested value. -/
theorem C1_amended (st : SysState) (donationId actorId status0 : String)
    (apt adt : Option ℚ) (now : ℚ) (don : DonationRec)
    (hfind : findDonation st donationId = some don)
    (hassoc : (don.donor == actorId || don.receiver == some actorId ||
      don.driver == some actorId) = true) :
    (updateStatus st donationId actorId status0 apt adt now).1 = UpdateOutcome.ok ∧
    (findDonation (updateStatus st donationId actorId status0 apt adt now).2
      donationId).map (fun d => d.status) = some status0 := by
  have hid : don.id = donationId := (findDonation_eq_some hfind).2
  unfold updateStatus
  rw [hfind]
  simp only [hassoc, Bool.not_true, Bool.false_eq_true, if_false]
  refine ⟨by trivial, ?_⟩
  have key : ∀ s2 : SysState,
      s2.donations = (saveDonation st (updatedDonation don status0 apt adt) now).donations →
      (findDonation s2 donationId).map (fun d => d.status) = some status0 := by
    intro s2 hs2
    rw [findDonation_congr s2 (saveDonation st (updatedDonation don status0 apt adt) now)
      donationId hs2]
    rw [saveDonation_findDonation, hfind]
    simp only [Option.map_some']
    rw [show (don.id == (updatedDonation don status0 apt adt).id) = true by
      rw [updatedDonation_id, hid]; exact beq_self_eq_true donationId]
    simp [updatedDonation_status]
  split
  · exact key _ (sync_donations _ _)
  · exact key _ rfl

/-- C10: whatever status is requested, the generic status-update operation
changes no stored donation field outside status, the two actual-time fields,
and `updatedAt`: every donation in the store keeps its id, donor, receiver,
driver, food items, pickup coordinates, delivery proof, notes, creation time
and preferred pickup time (ids are unique, as for MongoDB `_id`). -/
theorem C10_frame (st : SysState) (donationId actorId status0 : String)
    (apt adt : Option ℚ) (now : ℚ)
    (hnd : (st.donations.map (fun d => d.id)).Nodup) :
    List.Forall₂ sameFrame st.donations
      (updateStatus st donationId actorId status0 apt adt now).2.donations := by
  have hrefl : ∀ l : List DonationRec, List.Forall₂ sameFrame l l := by
    intro l
    rw [List.forall₂_same]
    intro x _
    exact ⟨rfl, rfl, rfl, rfl, rfl, rfl, rfl, rfl, rfl, rfl⟩
  unfold updateStatus
  cases hfind : findDonation st donationId with
  | none => exact hrefl _
  | some don =>
    obtain ⟨hmem, hid⟩ := findDonation_eq_some hfind
    simp only
    split
    · exact hrefl _
    · have hdons : ∀ s2 : SysState,
          s2.donations = (saveDonation st (updatedDonation don status0 apt adt) now).donations →
          List.Forall₂ sameFrame st.donations s2.donations := by
        intro s2 hs2
        rw [hs2]
        show List.Forall₂ sameFrame st.donations (st.donations.map _)
        apply forall₂_map_self
        intro x hx
        by_cases hxid : (x.id == (updatedDonation don status0 apt adt).id) = true
        · rw [if_pos hxid]
          have hxd : x = don := by
            apply List.inj_on_of_nodup_map hnd hx hmem
            rw [updatedDonation_id] at hxid
            exact eq_of_beq hxid
          subst hxd
          have h0 := updatedDonation_sameFrame x status0 apt adt
          exact ⟨h0.1, h0.2.1, h0.2.2.1, h0.2.2.2.1, h0.2.2.2.2.1, h0.2.2.2.2.2.1,
            h0.2.2.2.2.2.2.1, h0.2.2.2.2.2.2.2.1, h0.2.2.2.2.2.2.2.2.1,
            h0.2.2.2.2.2.2.2.2.2⟩
        · rw [if_neg hxid]
          exact ⟨rfl, rfl, rfl, rfl, rfl, rfl, rfl, rfl, rfl, rfl⟩
      split
      · exact hdons _ (sync_donations _ _)
      · exact hdons _ rfl

/-- C3 failing input: cancelling an assigned donation whose bound driver is
cached `busy` succeeds without ever invoking the synchronization block: the
driver's cached flag stays `busy` although the derived count of active
donations for that driver is 0. -/
theorem C3_cancel_no_sync :
    (updateStatus stC3 "d1" "don1" "cancelled" none none 7).1 = UpdateOutcome.ok ∧
    (findDonation (updateStatus stC3 "d1" "don1" "cancelled" none none 7).2 "d1").map
      (fun d => d.status) = some "cancelled" ∧
    (findUser (updateStatus stC3 "d1" "don1" "cancelled" none none 7).2 "drvA").map
      (fun u => u.driverStatus) = some "busy" ∧
    countActive (updateStatus stC3 "d1" "don1" "cancelled" none none 7).2.donations
      "drvA" = 0 := by
  exact ⟨rfl, rfl, rfl, rfl⟩

/-- C6 counterexample: a caller-specified driver that is inactive, has no
coordinates, and has one live active assignment — only its cached flag reads
`available` — is accepted by the assign-driver handler, where the claim
demands DriverUnavailable. -/
theorem C6_counterexample :
    drvStale.isActive = false ∧ drvStale.coordinates = none ∧
    countActive stC6.donations "drvC" = 1 ∧
    (assignDriverRoute stC6 "d1" "drvC" 3).1 = AssignOutcome.ok := by
  exact ⟨rfl, rfl, rfl, rfl⟩

/-- C6 amended: the manual assign-driver path re-validates only that the user
exists with role `driver` and that the cached occupancy flag is `available`;
active flag, coordinates, and the live count of active assignments are not
re-checked, so given a reserved donation and a user with role `driver` the
call succeeds exactly when the cached flag reads `available` and fails
driver-unavailable otherwise. -/
theorem C6_amended (st : SysState) (donationId driverId : String) (now : ℚ)
    (don : DonationRec) (dru : UserRec)
    (hdon : findDonation st donationId = some don)
    (hres : don.status = "reserved")
    (hdru : findUser st driverId = some dru)
    (hrole : dru.userType = "driver") :
    ((assignDriverRoute st donationId driverId now).1 = AssignOutcome.ok ↔
      dru.driverStatus = "available") ∧
    (dru.driverStatus ≠ "available" →
      (assignDriverRoute st donationId driverId now).1 = AssignOutcome.driverUnavailable) := by
  unfold assignDriverRoute assignDriverRead
  rw [hdon, hdru]
  simp only [hres, hrole]
  by_cases hav : dru.driverStatus = "available"
  · simp [hav]
  · simp [hav]

/-- C1 witness: the amended claim at a concrete input. -/
theorem C1_amended_witness :
    (updateStatus stC1 "d1" "don1" "reserved" none none 6).1 = UpdateOutcome.ok ∧
    (findDonation (updateStatus stC1 "d1" "don1" "reserved" none none 6).2 "d1").map
      (fun d => d.status) = some "reserved" :=
  C1_amended stC1 "d1" "don1" "reserved" none none 6 donAvailable rfl rfl

/-- C6 witness: the amended claim at a concrete input. -/
theorem C6_amended_witness :
    (assignDriverRoute stC2 "d1" "drvA" 3).1 = AssignOutcome.ok :=
  ((C6_amended stC2 "d1" "drvA" 3 donReserved drvA rfl rfl rfl rfl).1).mpr rfl

/-- C10 witness: the frame theorem at a concrete input. -/
theorem C10_frame_witness :
    List.Forall₂ sameFrame stC1.donations
      (updateStatus stC1 "d1" "don1" "picked_up" none none 8).2.donations :=
  C10_frame stC1 "d1" "don1" "picked_up" none none 8 (by decide)

/-- Inversion of a successful read phase of the assign-driver handler. -/
theorem assignDriverRead_ok {st : SysState} {donationId driverId : String}
    {don : DonationRec} {dru : UserRec}
    (h : assignDriverRead st donationId driverId = .ok (don, dru)) :
    findDonation st donationId = some don ∧ don.status = "reserved" ∧
    findUser st driverId = some dru ∧ dru.userType = "driver" ∧
    dru.driverStatus = "available" := by
  unfold assignDriverRead at h
  cases hd : findDonation st donationId with
  | none => rw [hd] at h; exact Except.noConfusion h
  | some d0 =>
    rw [hd] at h
    simp only at h
    by_cases hs : (d0.status != "reserved") = true
    · rw [if_pos hs] at h; exact Except.noConfusion h
    · rw [if_neg hs] at h
      cases hu : findUser st driverId with
      | none => rw [hu] at h; exact Except.noConfusion h
      | some u0 =>
        rw [hu] at h
        simp only at h
        by_cases hr : (u0.userType != "driver") = true
        · rw [if_pos hr] at h; exact Except.noConfusion h
        · rw [if_neg hr] at h
          by_cases ha : (u0.driverStatus != "available") = true
          · rw [if_pos ha] at h; exact Except.noConfusion h
          · rw [if_neg ha] at h
            injection h with hpair
            injection hpair with hd0 hu0
            subst hd0
            subst hu0
            refine ⟨rfl, by simpa using hs, rfl, by simpa using hr, by simpa using ha⟩

/-- Saving a user does not affect donation lookups. -/
theorem findDonation_saveUser (st : SysState) (u : UserRec) (i : String) :
    findDonation (saveUser st u) i = findDonation st i := rfl

/-- One assign-driver write phase, seen through a donation lookup: the
captured donation (with driver and status set) replaces the document of its
id; every other document is untouched. -/
theorem assignDriverWrite_findDonation (s : SysState) (don : DonationRec) (dru : UserRec)
    (driverId : String) (nw : ℚ) (i : String) :
    findDonation (assignDriverWrite s don dru driverId nw) i =
      (findDonation s i).map (fun x =>
        if x.id == don.id then
          { don with driver := some driverId, status := "assigned", updatedAt := nw }
        else x) := by
  unfold assignDriverWrite
  rw [show findDonation
      (saveUser (saveDonation s { don with driver := some driverId, status := "assigned" } nw)
        { dru with driverStatus := "busy" }) i =
      findDonation (saveDonation s { don with driver := some driverId, status := "assigned" } nw) i
    from rfl]
  rw [saveDonation_findDonation]

/-- C2 counterexample: under the §5 interleaving model, two commit-assign
handler runs on two reserved donations and the same sole driver, both reading
before either writes, both pass their checks; the second write is applied
although the driver's flag is already `busy` at that moment, no Conflict is
reported, and both donations end assigned to the same driver. -/
theorem C2_counterexample :
    assignDriverRead stC2 "d1" "drvA" = Except.ok (donReserved, drvA) ∧
    assignDriverRead stC2 "d2" "drvA" = Except.ok (donReserved2, drvA) ∧
    (findUser (assignDriverWrite stC2 donReserved drvA "drvA" 4) "drvA").map
      (fun u => u.driverStatus) = some "busy" ∧
    (findDonation (assignDriverWrite (assignDriverWrite stC2 donReserved drvA "drvA" 4)
        donReserved2 drvA "drvA" 5) "d1").map (fun d => (d.driver, d.status)) =
      some (some "drvA", "assigned") ∧
    (findDonation (assignDriverWrite (assignDriverWrite stC2 donReserved drvA "drvA" 4)
        donReserved2 drvA "drvA" 5) "d2").map (fun d => (d.driver, d.status)) =
      some (some "drvA", "assigned") := by
  exact ⟨rfl, rfl, rfl, rfl, rfl⟩

/-- C2 amended: the commit path checks its preconditions only at read time
and has no Conflict outcome: whenever two handler runs on distinct donations
both pass their read-phase checks against the same state, applying both write
phases succeeds unconditionally and leaves both donations assigned to the
same driver. -/
theorem C2_amended (st : SysState) (did1 did2 driverId : String) (now1 now2 : ℚ)
    (don1 don2 : DonationRec) (dru1 dru2 : UserRec)
    (h1 : assignDriverRead st did1 driverId = .ok (don1, dru1))
    (h2 : assignDriverRead st did2 driverId = .ok (don2, dru2))
    (hne : did1 ≠ did2) :
    (findDonation (assignDriverWrite (assignDriverWrite st don1 dru1 driverId now1)
        don2 dru2 driverId now2) did1).map (fun d => (d.driver, d.status)) =
      some (some driverId, "assigned") ∧
    (findDonation (assignDriverWrite (assignDriverWrite st don1 dru1 driverId now1)
        don2 dru2 driverId now2) did2).map (fun d => (d.driver, d.status)) =
      some (some driverId, "assigned") := by
  obtain ⟨hf1, _, _, _, _⟩ := assignDriverRead_ok h1
  obtain ⟨hf2, _, _, _, _⟩ := assignDriverRead_ok h2
  have hid1 : don1.id = did1 := (findDonation_eq_some hf1).2
  have hid2 : don2.id = did2 := (findDonation_eq_some hf2).2
  have hne12 : don1.id ≠ don2.id := by
    rw [hid1, hid2]
    exact hne
  constructor
  · rw [assignDriverWrite_findDonation, assignDriverWrite_findDonation, hf1]
    simp [hne12]
  · rw [assignDriverWrite_findDonation, assignDriverWrite_findDonation, hf2]
    simp [Ne.symm hne12]

/-- C2 witness: the amended claim at a concrete input. -/
theorem C2_amended_witness :
    (findDonation (assignDriverWrite (assignDriverWrite stC2 donReserved drvA "drvA" 6)
        donReserved2 drvA "drvA" 7) "d1").map (fun d => (d.driver, d.status)) =
      some (some "drvA", "assigned") ∧
    (findDonation (assignDriverWrite (assignDriverWrite stC2 donReserved drvA "drvA" 6)
        donReserved2 drvA "drvA" 7) "d2").map (fun d => (d.driver, d.status)) =
      some (some "drvA", "assigned") :=
  C2_amended stC2 "d1" "d2" "drvA" 6 7 donReserved donReserved2 drvA drvA rfl rfl
    (by decide)

/-- C4 counterexample: for the §8 scenario driver A (distance 5 km,
reputation 90, medium capacity, demand 90 kg) the commit path's stored score
is 5.22 = 261/50, not the §4.4 formula value 5.12 = 128/25: the commit path
adds a constant `availabilityScore` 0.1 term. -/
theorem C4_counterexample :
    (autoAssignEligible stScenario 90 distFix coordsPickup [drvA]).map
      (fun e => e.score) = [261/50] ∧
    specScore 5 90 90 150 = 128/25 ∧ ((261 : ℚ)/50) ≠ 128/25 := by
  refine ⟨?_, by norm_num [specScore], by norm_num⟩
  norm_num +decide [autoAssignEligible, isDriverAvailable, findUser, List.find?, stScenario,
    drvA, recvUser, countActive, List.filter, distFix, coordsA, coordsPickup,
    getVehicleCapacityKg]

/-- C4 amended: on the advisory path every entry's stored score is the §4.4
formula of its driver's data rounded to two decimals; on the commit path it
is the formula plus the constant 0.1 availability term. The constant offset
keeps the order: in the §8 scenario the advisory scores are 5.12 and 8.06,
the commit scores 5.22 and 8.16, and the ranking is [A, B] on both paths, and
the commit path assigns driver A. -/
theorem C4_amended :
    (∀ (st : SysState) (fq : ℚ) (dist : Coordinates → Coordinates → ℚ)
      (pickup : Coordinates) (pool : List UserRec) (e : RankedDriver),
      e ∈ advisoryEligible st fq dist pickup pool →
      ∃ d, d ∈ pool ∧ e.id = d.id ∧
        ∃ c, d.coordinates = some c ∧
          e.score = round2 (specScore (dist c pickup) d.reputationScore fq e.capacity)) ∧
    (∀ (st : SysState) (fq : ℚ) (dist : Coordinates → Coordinates → ℚ)
      (pickup : Coordinates) (pool : List UserRec) (e : ScoredEntry),
      e ∈ autoAssignEligible st fq dist pickup pool →
      ∃ c, e.driver.coordinates = some c ∧
        e.score = specScore (dist c pickup) e.driver.reputationScore fq e.capacity + 0.1) ∧
    ((stableSortByScore (fun e => e.score)
        (advisoryEligible stScenario 90 distFix coordsPickup [drvA, drvB])).map
      (fun e => (e.id, e.score)) = [("drvA", 128/25), ("drvB", 403/50)]) ∧
    ((stableSortByScore (fun e => e.score)
        (autoAssignEligible stScenario 90 distFix coordsPickup [drvA, drvB])).map
      (fun e => (e.driver.id, e.score)) = [("drvA", 261/50), ("drvB", 204/25)]) ∧
    (autoAssign stScenario "d1" distFix 9).1 = AutoAssignOutcome.assigned "drvA" := by
  refine ⟨?_, ?_, ?_, ?_, ?_⟩
  · intro st fq dist pickup pool e he
    obtain ⟨d, hd, hid, _, _, c, hc, hs⟩ := advisoryEligible_mem st fq dist pickup pool e he
    exact ⟨d, hd, hid, c, hc, hs⟩
  · intro st fq dist pickup pool e he
    obtain ⟨_, _, _, c, hc, hs⟩ := autoAssignEligible_mem st fq dist pickup pool e he
    exact ⟨c, hc, hs⟩
  · norm_num +decide [advisoryEligible, isDriverAvailable, findUser, List.find?, stScenario,
      drvA, drvB, recvUser, donReserved, countActive, List.filter, distFix, coordsA, coordsB,
      coordsPickup, getVehicleCapacityKg, round2, round_eq, stableSortByScore,
      List.insertionSort, List.orderedInsert]
  · norm_num +decide [autoAssignEligible, isDriverAvailable, findUser, List.find?, stScenario,
      drvA, drvB, recvUser, donReserved, countActive, List.filter, distFix, coordsA, coordsB,
      coordsPickup, getVehicleCapacityKg, stableSortByScore, List.insertionSort,
      List.orderedInsert]
  · norm_num +decide [autoAssign, findDonation, findUser, List.find?, stScenario, drvA, drvB,
      recvUser, donReserved, receiverCoordinates, calculateFoodQuantity, driverPool, List.filter,
      autoAssignEligible, isDriverAvailable, countActive, distFix, coordsA, coordsB, coordsPickup,
      getVehicleCapacityKg, stableSortByScore, List.insertionSort, List.orderedInsert]

/-- The advisory entry the §8 scenario produces for driver A. -/
theorem C4_amended_witness :
    ∃ d, d ∈ [drvA, drvB] ∧
      ({ id := "drvA", distance := 5, capacity := 150, vehicleCapacity := "medium",
         reputationScore := 90, score := 128/25 } : RankedDriver).id = d.id ∧
      ∃ c, d.coordinates = some c ∧
        ({ id := "drvA", distance := 5, capacity := 150, vehicleCapacity := "medium",
           reputationScore := 90, score := 128/25 } : RankedDriver).score =
          round2 (specScore (distFix c coordsPickup) d.reputationScore 90
            ({ id := "drvA", distance := 5, capacity := 150, vehicleCapacity := "medium",
               reputationScore := 90, score := 128/25 } : RankedDriver).capacity) :=
  C4_amended.1 stScenario 90 distFix coordsPickup [drvA, drvB]
    { id := "drvA", distance := 5, capacity := 150, vehicleCapacity := "medium",
      reputationScore := 90, score := 128/25 }
    (by
      norm_num +decide [advisoryEligible, isDriverAvailable, findUser, List.find?, stScenario,
        drvA, drvB, recvUser, donReserved, countActive, List.filter, distFix, coordsA, coordsB,
        coordsPickup, getVehicleCapacityKg, round2, round_eq, List.mem_cons])

/-- C5 counterexample: drivers A (5 km, reputation 90) and Y (0.5 km,
reputation 84) have equal advisory scores 5.12 for a 90 kg demand; the ranked
output keeps pool order [A, Y] although the claimed tie-break (lower distance
first) demands [Y, A]. -/
theorem C5_counterexample :
    (stableSortByScore (fun e => e.score)
        (advisoryEligible stTie 90 distFix coordsPickup [drvA, drvY])).map
      (fun e => (e.id, e.score, e.distance)) =
      [("drvA", 128/25, 5), ("drvY", 128/25, 1/2)] ∧
    ((1 : ℚ)/2) < 5 := by
  refine ⟨?_, by norm_num⟩
  norm_num +decide [advisoryEligible, isDriverAvailable, findUser, List.find?, stTie, drvA,
    drvY, countActive, List.filter, distFix, coordsA, coordsY, coordsPickup,
    getVehicleCapacityKg, round2, round_eq, stableSortByScore, List.insertionSort,
    List.orderedInsert]

/-- C5 amended: on both paths the ranked list is sorted ascending by the
stored score and is a permutation of the eligible entries; entries with equal
scores keep their candidate-pool order (the sort is stable on the score key
alone) — no distance, reputation, or identity tie-break is applied. -/
theorem C5_amended (st : SysState) (fq : ℚ) (dist : Coordinates → Coordinates → ℚ)
    (pickup : Coordinates) (pool : List UserRec) :
    List.Sorted (fun a b : RankedDriver => a.score ≤ b.score)
      (stableSortByScore (fun e => e.score) (advisoryEligible st fq dist pickup pool)) ∧
    List.Perm (stableSortByScore (fun e => e.score) (advisoryEligible st fq dist pickup pool))
      (advisoryEligible st fq dist pickup pool) ∧
    (∀ s : ℚ, (stableSortByScore (fun e => e.score)
        (advisoryEligible st fq dist pickup pool)).filter (fun e => e.score == s) =
      (advisoryEligible st fq dist pickup pool).filter (fun e => e.score == s)) ∧
    List.Sorted (fun a b : ScoredEntry => a.score ≤ b.score)
      (stableSortByScore (fun e => e.score) (autoAssignEligible st fq dist pickup pool)) ∧
    List.Perm (stableSortByScore (fun e => e.score) (autoAssignEligible st fq dist pickup pool))
      (autoAssignEligible st fq dist pickup pool) ∧
    (∀ s : ℚ, (stableSortByScore (fun e => e.score)
        (autoAssignEligible st fq dist pickup pool)).filter (fun e => e.score == s) =
      (autoAssignEligible st fq dist pickup pool).filter (fun e => e.score == s)) :=
  ⟨stableSortByScore_sorted _ _, stableSortByScore_perm _ _,
   fun s => stableSortByScore_filter _ _ s,
   stableSortByScore_sorted _ _, stableSortByScore_perm _ _,
   fun s => stableSortByScore_filter _ _ s⟩

/-- Reserving writes only the donation collection. -/
theorem reserveRoute_users (st : SysState) (a b : String) (now : ℚ) :
    (reserveRoute st a b now).2.users = st.users := by
  unfold reserveRoute
  cases findDonation st a with
  | none => rfl
  | some d =>
    simp only
    split
    · rfl
    · rfl

/-- When the requested status is not `delivered`, the status handler leaves
the user collection untouched. -/
theorem updateStatus_users (st : SysState) (donationId actorId status0 : String)
    (apt adt : Option ℚ) (now : ℚ) (h : (status0 == "delivered") = false) :
    (updateStatus st donationId actorId status0 apt adt now).2.users = st.users := by
  unfold updateStatus
  cases findDonation st donationId with
  | none => rfl
  | some don =>
    simp only
    split
    · rfl
    · simp only [h, Bool.false_and]
      rfl

/-- Saving back a user whose occupancy flag is unchanged preserves every
user's occupancy flag (ids unique). -/
theorem saveUser_keeps_driverStatus (st : SysState) (user u4 : UserRec)
    (hnd : (st.users.map (fun x => x.id)).Nodup)
    (hmem : user ∈ st.users)
    (hid : u4.id = user.id)
    (hds : u4.driverStatus = user.driverStatus) :
    List.Forall₂ (fun u v : UserRec => u.driverStatus = v.driverStatus) st.users
      (saveUser st u4).users := by
  show List.Forall₂ _ st.users (st.users.map _)
  apply forall₂_map_self
  intro x hx
  by_cases hxid : (x.id == u4.id) = true
  · rw [if_pos hxid]
    have hxu : x = user :=
      List.inj_on_of_nodup_map hnd hx hmem (by rw [eq_of_beq hxid, hid])
    rw [hxu, hds]
  · rw [if_neg hxid]

/-- C7 counterexample: the driver self-service status endpoint — which the
spec does not list among the permitted occupancy writers — flips a driver's
occupancy flag from `available` to `busy` directly. -/
theorem C7_counterexample :
    specOccupancyWriters (Op.driverSelfStatus "drvA" "busy") = false ∧
    (findUser stC7 "drvA").map (fun u => u.driverStatus) = some "available" ∧
    (findUser (runOp 0 (Op.driverSelfStatus "drvA" "busy") stC7) "drvA").map
      (fun u => u.driverStatus) = some "busy" := by
  exact ⟨rfl, rfl, rfl⟩

/-- C7 amended: a driver's occupancy flag is written by the commit path of
the matching engine, the delivered-branch synchronization of the status and
delivery-proof handlers, and additionally by the driver self-service status
endpoint and the admin user-update endpoint; every other exposed mutating
operation preserves every user's occupancy flag (ids unique). -/
theorem C7_amended (now : ℚ) (op : Op) (st : SysState)
    (hnd : (st.users.map (fun u => u.id)).Nodup)
    (hw : codeOccupancyWriters op = false) :
    List.Forall₂ (fun u v : UserRec => u.driverStatus = v.driverStatus) st.users
      (runOp now op st).users := by
  have hrefl : ∀ l : List UserRec,
      List.Forall₂ (fun u v : UserRec => u.driverStatus = v.driverStatus) l l := by
    intro l
    rw [List.forall₂_same]
    intro x _
    rfl
  cases op with
  | createDonation a b c d e f => exact hrefl _
  | reserve a b =>
    show List.Forall₂ _ st.users (reserveRoute st a b now).2.users
    rw [reserveRoute_users]
    exact hrefl _
  | assignDriver a b => exact absurd hw (by simp [codeOccupancyWriters])
  | updateStatus a b c d e =>
    show List.Forall₂ _ st.users (updateStatus st a b c d e now).2.users
    rw [updateStatus_users st a b c d e now (by simpa [codeOccupancyWriters] using hw)]
    exact hrefl _
  | deliveryProof a b c => exact absurd hw (by simp [codeOccupancyWriters])
  | driverSelfStatus a b => exact absurd hw (by simp [codeOccupancyWriters])
  | adminUpdateUser a k r ac ds =>
    cases ds with
    | some x => exact absurd hw (by simp [codeOccupancyWriters])
    | none =>
      show List.Forall₂ _ st.users (adminUpdateUserRoute st a k r ac none).2.users
      unfold adminUpdateUserRoute
      cases hu : findUser st a with
      | none => exact hrefl _
      | some user =>
        simp only
        refine saveUser_keeps_driverStatus st user _ hnd (findUser_eq_some hu).1 ?_ ?_
        · cases k <;> cases r <;> cases ac <;> rfl
        · cases k <;> cases r <;> cases ac <;> rfl
  | profileUpdate a c n p =>
    show List.Forall₂ _ st.users (profileUpdateRoute st a c n p).2.users
    unfold profileUpdateRoute
    cases hu : findUser st a with
    | none => exact hrefl _
    | some user =>
      simp only
      refine saveUser_keeps_driverStatus st user _ hnd (findUser_eq_some hu).1 ?_ ?_
      · cases c <;> cases n <;> cases p <;> rfl
      · cases c <;> cases n <;> cases p <;> rfl

/-- C7 witness: a non-writer operation at a concrete input. -/
theorem C7_amended_witness :
    List.Forall₂ (fun u v : UserRec => u.driverStatus = v.driverStatus) stC7.users
      (runOp 0 (Op.reserve "d9" "rcv1") stC7).users :=
  C7_amended 0 (Op.reserve "d9" "rcv1") stC7 (by decide) rfl

/-- C8: no driver whose vehicle capacity is below the donation's kg demand
appears in the advisory ranked list or the commit candidate list, and the
driver selected by the auto-commit path always has capacity at least the
demand of the donation's items. -/
theorem C8_capacity :
    (∀ (st : SysState) (fq : ℚ) (dist : Coordinates → Coordinates → ℚ)
      (pickup : Coordinates) (pool : List UserRec) (e : RankedDriver),
      e ∈ stableSortByScore (fun x => x.score) (advisoryEligible st fq dist pickup pool) →
      fq ≤ e.capacity) ∧
    (∀ (st : SysState) (fq : ℚ) (dist : Coordinates → Coordinates → ℚ)
      (pickup : Coordinates) (pool : List UserRec) (e : ScoredEntry),
      e ∈ stableSortByScore (fun x => x.score) (autoAssignEligible st fq dist pickup pool) →
      fq ≤ e.capacity) ∧
    (∀ (st : SysState) (donationId : String) (dist : Coordinates → Coordinates → ℚ)
      (now : ℚ) (drId : String) (st2 : SysState),
      autoAssign st donationId dist now = (AutoAssignOutcome.assigned drId, st2) →
      ∃ don, findDonation st donationId = some don ∧
        ∃ u, u ∈ st.users ∧ u.id = drId ∧
          calculateFoodQuantity don.foodItems ≤
            getVehicleCapacityKg (u.vehicleCapacity.getD "medium")) ∧
    (∀ (st : SysState) (donationId : String) (dist : Coordinates → Coordinates → ℚ)
      (lst : List RankedDriver) (fqv : ℚ),
      availableDriversRoute st donationId dist = AdvisoryOutcome.ok lst fqv →
      ∀ e ∈ lst, ∃ don, findDonation st donationId = some don ∧
        calculateFoodQuantity don.foodItems ≤ e.capacity) := by
  have hadv : ∀ (st : SysState) (fq : ℚ) (dist : Coordinates → Coordinates → ℚ)
      (pickup : Coordinates) (pool : List UserRec) (e : RankedDriver),
      e ∈ stableSortByScore (fun x => x.score) (advisoryEligible st fq dist pickup pool) →
      fq ≤ e.capacity := by
    intro st fq dist pickup pool e he
    have he2 : e ∈ advisoryEligible st fq dist pickup pool :=
      (stableSortByScore_perm (fun x : RankedDriver => x.score)
        (advisoryEligible st fq dist pickup pool)).mem_iff.mp he
    obtain ⟨d, _, _, _, hfq, _⟩ := advisoryEligible_mem st fq dist pickup pool e he2
    exact hfq
  have hcommit : ∀ (st : SysState) (fq : ℚ) (dist : Coordinates → Coordinates → ℚ)
      (pickup : Coordinates) (pool : List UserRec) (e : ScoredEntry),
      e ∈ stableSortByScore (fun x => x.score) (autoAssignEligible st fq dist pickup pool) →
      fq ≤ e.capacity := by
    intro st fq dist pickup pool e he
    have he2 : e ∈ autoAssignEligible st fq dist pickup pool :=
      (stableSortByScore_perm (fun x : ScoredEntry => x.score)
        (autoAssignEligible st fq dist pickup pool)).mem_iff.mp he
    obtain ⟨_, _, hfq, _⟩ := autoAssignEligible_mem st fq dist pickup pool e he2
    exact hfq
  refine ⟨hadv, hcommit, ?_, ?_⟩
  · intro st donationId dist now drId st2 h
    unfold autoAssign at h
    cases hfind : findDonation st donationId with
    | none =>
      rw [hfind] at h
      exact absurd h (by simp)
    | some don =>
      rw [hfind] at h
      simp only at h
      cases hp : don.pickupCoordinates with
      | none =>
        rw [hp] at h
        exact absurd h (by simp)
      | some pickup =>
        rw [hp] at h
        cases hrc : receiverCoordinates st don with
        | none =>
          rw [hrc] at h
          exact absurd h (by simp)
        | some rc =>
          rw [hrc] at h
          simp only at h
          by_cases hemp : (driverPool st).isEmpty = true
          · rw [if_pos hemp] at h
            exact absurd h (by simp)
          · rw [if_neg hemp] at h
            cases hsort : stableSortByScore (fun e => e.score)
                (autoAssignEligible st (calculateFoodQuantity don.foodItems) dist pickup
                  (driverPool st)) with
            | nil =>
              rw [hsort] at h
              exact absurd h (by simp)
            | cons best rest =>
              rw [hsort] at h
              simp only [Prod.mk.injEq, AutoAssignOutcome.assigned.injEq] at h
              obtain ⟨hbid, _⟩ := h
              have hbest : best ∈ autoAssignEligible st (calculateFoodQuantity don.foodItems)
                  dist pickup (driverPool st) :=
                (stableSortByScore_perm _ _).mem_iff.mp (hsort ▸ List.mem_cons_self best rest)
              obtain ⟨hdmem, hcapEq, hfq, _⟩ :=
                autoAssignEligible_mem st (calculateFoodQuantity don.foodItems) dist pickup
                  (driverPool st) best hbest
              refine ⟨don, rfl, best.driver, ?_, hbid, ?_⟩
              · exact List.filter_subset' _ hdmem
              · rw [← hcapEq]
                exact hfq
  · intro st donationId dist lst fqv h e he
    unfold availableDriversRoute at h
    cases hfind : findDonation st donationId with
    | none =>
      rw [hfind] at h
      exact absurd h (by simp)
    | some don =>
      rw [hfind] at h
      simp only at h
      cases hp : don.pickupCoordinates with
      | none =>
        rw [hp] at h
        exact absurd h (by simp)
      | some pickup =>
        rw [hp] at h
        simp only [AdvisoryOutcome.ok.injEq] at h
        obtain ⟨hl, _⟩ := h
        subst hl
        exact ⟨don, rfl,
          hadv st (calculateFoodQuantity don.foodItems) dist pickup (driverPool st) e he⟩

/-- C8 witness: the advisory part at a concrete input. -/
theorem C8_capacity_witness :
    (90 : ℚ) ≤
      ({ id := "drvA", distance := 5, capacity := 150, vehicleCapacity := "medium",
         reputationScore := 90, score := 128/25 } : RankedDriver).capacity :=
  C8_capacity.1 stScenario 90 distFix coordsPickup [drvA, drvB]
    { id := "drvA", distance := 5, capacity := 150, vehicleCapacity := "medium",
      reputationScore := 90, score := 128/25 }
    (by
      norm_num +decide [advisoryEligible, isDriverAvailable, findUser, List.find?, stScenario,
        drvA, drvB, recvUser, donReserved, countActive, List.filter, distFix, coordsA, coordsB,
        coordsPickup, getVehicleCapacityKg, round2, round_eq, stableSortByScore,
        List.insertionSort, List.orderedInsert, List.mem_cons])

end ShareBite
